import Mathlib

/-!
Verification development for the encrypted journal store of `journal.py`
(classes `JournalEntry` and `JournalManager`).

Modelling conventions (shallow embedding):

* Python exceptions are modelled by `Except PyError`; an operation whose
  Lean model returns a plain value (no `Except`) cannot raise an uncaught
  exception, mirroring a Python body whose `try/except` catches everything.
* Text printed with `print(...)` inside `except` blocks is modelled as a
  returned list of diagnostic strings (empty list = nothing reported).
* The per-user files `key_<user>.key`, `journal_<user>.json` and
  `backup_journal_<user>.json` are modelled by the three fields of `FS`;
  `none` means the file does not exist.
* Fernet is modelled abstractly: a key is a `Nat`; a valid token records
  the key it was produced with and its plaintext; decrypting a garbage
  blob, an empty string, or a token made under a different key raises
  `InvalidToken`, matching Fernet's authenticated decryption.
* The decrypted JSON payload is either a well-formed array of string-keyed
  records (`Plaintext.records`) or anything `json.loads` / iteration
  rejects (`Plaintext.malformed`).
* `datetime.now().strftime("%Y-%m-%d %H:%M:%S")` is modelled by an
  explicit `now : String` argument threaded to the constructor.
* I/O faults (disk full, permission denied, unreadable file) cannot occur
  spontaneously in a pure model, so they are injected explicitly: the
  `SaveFaults` record says which step of `save_entries` raises, and a
  `readFails` flag says whether `file.read()` raises in `load_entries`.
-/

/-- Python values that can appear in a serialized journal record: the
value shapes actually produced by `JournalEntry.to_dict` (strings, ints,
lists of strings, and `None`). -/
inductive PyValue where
  | str (s : String)
  | int (n : Int)
  | list (xs : List String)
  | noneV
deriving DecidableEq

/-- The Python exceptions relevant to the store. -/
inductive PyError where
  | typeError (msg : String)
  | valueError (msg : String)
  | invalidToken
  | ioError (msg : String)
deriving DecidableEq

/-- Message text attached to an exception, as interpolated by
`f"Error ...: {str(e)}"` in the source. -/
def errText : PyError → String
  | .typeError msg => msg
  | .valueError msg => msg
  | .invalidToken => "InvalidToken"
  | .ioError msg => msg

/-- One journal entry: the eight attributes set by
`JournalEntry.__init__` (`journal.py` lines 30-39). -/
structure JournalEntry where
  title : String
  content : String
  mood : String
  mood_rating : Int
  tags : List String
  completed_tasks : List String
  forgettable_thing : Option String
  date : String
deriving DecidableEq

/-- `JournalEntry.__init__` (lines 30-39).  `tags`/`completed_tasks`
follow Python truthiness: `tags if tags else []` turns both `None` and
`[]` into `[]`.  `date` is assigned from the current time (`now`). -/
def JournalEntry.init (title content mood : String) (mood_rating : Int)
    (tags : Option (List String)) (completed_tasks : Option (List String))
    (forgettable_thing : Option String) (now : String) : JournalEntry where
  title := title
  content := content
  mood := mood
  mood_rating := mood_rating
  tags := match tags with
    | some (t :: ts) => t :: ts
    | _ => []
  completed_tasks := match completed_tasks with
    | some (t :: ts) => t :: ts
    | _ => []
  forgettable_thing := forgettable_thing
  date := now

/-- `JournalEntry.to_dict` (lines 78-89): the serialized record, as an
insertion-ordered key/value list, exactly the eight keys of the source. -/
def JournalEntry.to_dict (e : JournalEntry) : List (String × PyValue) :=
  [("title", .str e.title),
   ("content", .str e.content),
   ("mood", .str e.mood),
   ("mood_rating", .int e.mood_rating),
   ("tags", .list e.tags),
   ("completed_tasks", .list e.completed_tasks),
   ("forgettable_thing", match e.forgettable_thing with
     | some s => .str s
     | none => .noneV),
   ("date", .str e.date)]

/-- The keyword parameters accepted by `JournalEntry.__init__`
(everything after `self`).  Note `date` is NOT among them. -/
def initParams : List String :=
  ["title", "content", "mood", "mood_rating", "tags", "completed_tasks",
   "forgettable_thing"]

/-- First value bound to `name` in a kwargs dict, if any. -/
def lookupKw (kwargs : List (String × PyValue)) (name : String) :
    Option PyValue :=
  match kwargs.find? (fun kv => kv.1 == name) with
  | some kv => some kv.2
  | none => none

/-- The call `JournalEntry(**entry)` (line 138): Python keyword-argument
binding against the `__init__` signature.  A key outside the parameter
list raises `TypeError: unexpected keyword argument`; a missing required
parameter raises `TypeError` as well.  Python performs no type checks on
the bound values; records produced by `to_dict` always carry the shapes
matched below, so a shape mismatch is reported as a `TypeError` too. -/
def JournalEntry.callInit (kwargs : List (String × PyValue)) (now : String) :
    Except PyError JournalEntry :=
  match kwargs.find? (fun kv => !(initParams.contains kv.1)) with
  | some kv =>
      .error (.typeError ("__init__() got an unexpected keyword argument " ++ kv.1))
  | none =>
    match lookupKw kwargs "title", lookupKw kwargs "content",
          lookupKw kwargs "mood", lookupKw kwargs "mood_rating" with
    | some (.str t), some (.str c), some (.str mo), some (.int r) =>
      let tags : Option (List String) :=
        match lookupKw kwargs "tags" with
        | some (.list xs) => some xs
        | _ => none
      let tasks : Option (List String) :=
        match lookupKw kwargs "completed_tasks" with
        | some (.list xs) => some xs
        | _ => none
      let fg : Option String :=
        match lookupKw kwargs "forgettable_thing" with
        | some (.str s) => some s
        | _ => none
      .ok (JournalEntry.init t c mo r tags tasks fg now)
    | _, _, _, _ =>
      .error (.typeError "__init__() missing or ill-typed required argument")

/-- Content of the per-user key file: either a valid Fernet key or raw
bytes that `Fernet(...)` rejects. -/
inductive KeyData where
  | validKey (k : Nat)
  | corruptKey (raw : String)
deriving DecidableEq

/-- Decrypted payload: either a JSON array of string-keyed records or
content that `json.loads` (or iterating it as records) rejects. -/
inductive Plaintext where
  | records (rs : List (List (String × PyValue)))
  | malformed (raw : String)
deriving DecidableEq

/-- Content of the per-user data/backup file, when it exists. -/
inductive FileData where
  | emptyFile
  | token (key : Nat) (payload : Plaintext)
  | garbage (raw : String)
deriving DecidableEq

/-- The on-disk state for one user: `key_<user>.key`,
`journal_<user>.json`, `backup_journal_<user>.json`.  `none` = missing. -/
structure FS where
  keyFile : Option KeyData
  dataFile : Option FileData
  backupFile : Option FileData
deriving DecidableEq

/-- `self.cipher.encrypt(...)` (line 123): a Fernet token bound to the
encrypting key. -/
def fernetEncrypt (key : Nat) (p : Plaintext) : FileData := .token key p

/-- `self.cipher.decrypt(...)` (line 127): succeeds exactly on a token
produced under the same key; anything else raises `InvalidToken`. -/
def fernetDecrypt (key : Nat) : FileData → Except PyError Plaintext
  | .token k p => if k == key then .ok p else .error .invalidToken
  | _ => .error .invalidToken

/-- `Fernet(key)` (line 105): raises `ValueError` on a key that is not
32 url-safe base64-encoded bytes. -/
def fernetNew : KeyData → Except PyError Nat
  | .validKey k => .ok k
  | .corruptKey _ =>
      .error (.valueError "Fernet key must be 32 url-safe base64-encoded bytes.")

/-- `JournalManager._get_or_create_key` (lines 109-119): read the key
file verbatim if it exists, else generate a fresh key (`freshKey`) and
persist it. -/
def get_or_create_key (fs : FS) (freshKey : Nat) : KeyData × FS :=
  match fs.keyFile with
  | some kd => (kd, fs)
  | none =>
      (.validKey freshKey, { fs with keyFile := some (.validKey freshKey) })

/-- The in-memory manager state (`self.key`, `self.entries`). -/
structure JournalManager where
  key : Nat
  entries : List JournalEntry
deriving DecidableEq

/-- The list comprehension `[JournalEntry(**entry) for entry in data]`
(line 138): left to right, the first raising element aborts the whole
comprehension. -/
def constructEntries (now : String) :
    List (List (String × PyValue)) → Except PyError (List JournalEntry)
  | [] => .ok []
  | r :: rs =>
    match JournalEntry.callInit r now with
    | .error e => .error e
    | .ok en =>
      match constructEntries now rs with
      | .error e => .error e
      | .ok ens => .ok (en :: ens)

/-- `JournalManager.load_entries` (lines 129-143).  `prev` is the value
of `self.entries` on entry (the missing-file branch leaves it alone).
Any exception inside the `try` — a failing `file.read()` (`readFails`),
`InvalidToken` from decryption, a JSON decode error, or a `TypeError`
from entry construction — is caught, a diagnostic is printed, and the
collection falls back to empty.  Nothing is ever written to `fs`. -/
def load_entries (key : Nat) (prev : List JournalEntry) (fs : FS)
    (readFails : Bool) (now : String) : List JournalEntry × List String :=
  match fs.dataFile with
  | none => (prev, [])
  | some fd =>
    if readFails then ([], ["Error loading journal: read failed"]) else
    match fd with
    | .emptyFile => ([], [])
    | fd' =>
      match fernetDecrypt key fd' with
      | .error e => ([], ["Error loading journal: " ++ errText e])
      | .ok (.malformed _) => ([], ["Error loading journal: Expecting value"])
      | .ok (.records rs) =>
        match constructEntries now rs with
        | .error e => ([], ["Error loading journal: " ++ errText e])
        | .ok es => (es, [])

/-- Fault injection for `save_entries`: which step raises.  Serialization
and encryption failures precede any file write; a failing `open(..., 'w')`
raises before the corresponding file is touched. -/
structure SaveFaults where
  serializeFails : Bool
  encryptFails : Bool
  primaryOpenFails : Bool
  backupOpenFails : Bool
deriving DecidableEq

/-- `JournalManager.save_entries` (lines 145-158): serialize the whole
collection, encrypt, overwrite the primary file, then write the identical
ciphertext to the backup file.  The single `except` catches a failure at
any step, prints a diagnostic, and leaves whatever was already written in
place. -/
def save_entries (m : JournalManager) (fs : FS) (f : SaveFaults) :
    FS × List String :=
  if f.serializeFails then
    (fs, ["Error saving journal: serialization failed"])
  else if f.encryptFails then
    (fs, ["Error saving journal: encryption failed"])
  else
    let ct := fernetEncrypt m.key (.records (m.entries.map JournalEntry.to_dict))
    if f.primaryOpenFails then
      (fs, ["Error saving journal: cannot open primary file"])
    else
      let fs1 := { fs with dataFile := some ct }
      if f.backupOpenFails then
        (fs1, ["Error saving journal: cannot open backup file"])
      else
        ({ fs1 with backupFile := some ct }, [])

/-- `JournalManager.__init__` (lines 100-107): obtain or create the key,
build the Fernet cipher (this is where a corrupt key raises an uncaught
`ValueError`), set `self.entries = []`, then `load_entries`.  The result
carries the manager, the file system after any key creation, and the
printed diagnostics. -/
def JournalManager.init (fs : FS) (freshKey : Nat) (readFails : Bool)
    (now : String) : Except PyError (JournalManager × FS × List String) :=
  let kfs := get_or_create_key fs freshKey
  match fernetNew kfs.1 with
  | .error e => .error e
  | .ok k =>
    let ld := load_entries k [] kfs.2 readFails now
    .ok ({ key := k, entries := ld.1 }, kfs.2, ld.2)

/-- `JournalManager.add_entry` (lines 160-163): append, then save. -/
def add_entry (m : JournalManager) (e : JournalEntry) (fs : FS)
    (f : SaveFaults) : JournalManager × FS × List String :=
  let m' : JournalManager := { m with entries := m.entries ++ [e] }
  let sv := save_entries m' fs f
  (m', sv.1, sv.2)

/-- `JournalManager.edit_entry` (lines 165-171): replace the entry at
`index` and save when `0 <= index < len(entries)`, else return `False`
without touching anything.  The index is a Python `int`, so negative
values are rejected by the explicit bound check. -/
def edit_entry (m : JournalManager) (index : Int) (new_entry : JournalEntry)
    (fs : FS) (f : SaveFaults) : Bool × JournalManager × FS × List String :=
  if 0 ≤ index ∧ index < (m.entries.length : Int) then
    let m' : JournalManager :=
      { m with entries := m.entries.set index.toNat new_entry }
    let sv := save_entries m' fs f
    (true, m', sv.1, sv.2)
  else
    (false, m, fs, [])

/-- `JournalManager.delete_entry` (lines 173-179): remove the entry at
`index` and save when `0 <= index < len(entries)`, else return `False`
without touching anything. -/
def delete_entry (m : JournalManager) (index : Int) (fs : FS)
    (f : SaveFaults) : Bool × JournalManager × FS × List String :=
  if 0 ≤ index ∧ index < (m.entries.length : Int) then
    let m' : JournalManager := { m with entries := m.entries.eraseIdx index.toNat }
    let sv := save_entries m' fs f
    (true, m', sv.1, sv.2)
  else
    (false, m, fs, [])

/-- Split a character list on `-` separators (models the field split
performed by `datetime.strptime(s, "%Y-%m-%d")`). -/
def splitDash : List Char → List (List Char)
  | [] => [[]]
  | c :: cs =>
    let r := splitDash cs
    if c = '-' then [] :: r
    else
      match r with
      | g :: gs => (c :: g) :: gs
      | [] => [[c]]

/-- Gregorian leap-year rule, as `datetime` validates day-of-month. -/
def isLeap (y : Nat) : Bool :=
  (y % 4 == 0 && y % 100 != 0) || y % 400 == 0

/-- Days in month `m` of year `y`. -/
def daysInMonth (y m : Nat) : Nat :=
  if m == 2 then (if isLeap y then 29 else 28)
  else if m == 4 || m == 6 || m == 9 || m == 11 then 30
  else 31

/-- Digit-string predicate. -/
def isDigits (cs : List Char) : Bool :=
  !cs.isEmpty && cs.all Char.isDigit

/-- Decimal value of a digit string. -/
def digitsToNat (cs : List Char) : Nat :=
  cs.foldl (fun a c => a * 10 + (c.toNat - 48)) 0

/-- The `%d` directive of CPython's `_strptime` regex,
`3[01]|[12]\d|0[1-9]|[1-9]| [1-9]`: one or two digits, or a single
nonzero digit padded with one leading space; yields the numeric day.
Values outside 1..31 only arise from the two-digit form and are rejected
downstream (CPython leaves a trailing digit unconverted, which raises
the same `ValueError` the calendar check models). -/
def parseDayField (ds : List Char) : Option Nat :=
  if isDigits ds && ds.length ≤ 2 then some (digitsToNat ds)
  else
    match ds with
    | [' ', c] => if c.isDigit && c != '0' then some (c.toNat - 48) else none
    | _ => none

/-- `datetime.strptime(s, "%Y-%m-%d")` (lines 231-235), per CPython's
`_strptime` directive regexes: `%Y` is `\d\d\d\d` (exactly four digits),
`%m` is `1[0-2]|0[1-9]|[1-9]` (one or two digits, value 1..12), `%d` is
`parseDayField`, the separators are literal dashes with nothing left
over, and the resulting (year, month, day) must be a constructible date
(year at least 1, day within the month, Gregorian leap years); anything
else raises `ValueError`.  Digit characters are modelled as ASCII `0-9`
(non-ASCII Unicode decimal digits, which CPython's `\d` would also
accept, are outside the model).  Only the (year, month, day) triple is
kept, ordered as `datetime` orders dates. -/
def strptimeYMD (cs : List Char) : Option (Nat × Nat × Nat) :=
  match splitDash cs with
  | [ys, ms, ds] =>
    match parseDayField ds with
    | none => none
    | some d =>
      if isDigits ys && ys.length == 4 && isDigits ms && ms.length ≤ 2 then
        let y := digitsToNat ys
        let m := digitsToNat ms
        if 1 ≤ y && 1 ≤ m && m ≤ 12 && 1 ≤ d && d ≤ daysInMonth y m then
          some (y, m, d)
        else none
      else none
  | _ => none

/-- Date comparison `a <= b` on (year, month, day), as `datetime`
compares. -/
def dateLe (a b : Nat × Nat × Nat) : Bool :=
  a.1 < b.1 || (a.1 == b.1 &&
    (a.2.1 < b.2.1 || (a.2.1 == b.2.1 && a.2.2 ≤ b.2.2)))

/-- The per-entry test of the comprehension on lines 233-236, as a total
predicate: an entry matches when the first ten characters of its `date`
parse and fall within `[sd, ed]`. -/
def matchesRange (sd ed : Nat × Nat × Nat) (en : JournalEntry) : Bool :=
  match strptimeYMD (en.date.toList.take 10) with
  | some d => dateLe sd d && dateLe d ed
  | none => false

/-- The comprehension on lines 233-236: for each entry in order, parse
`entry.date[:10]`; a parse failure raises `ValueError` (aborting the
whole query); otherwise keep the entry when its date lies in range. -/
def filterByDateRange (sd ed : Nat × Nat × Nat) :
    List JournalEntry → Except PyError (List JournalEntry)
  | [] => .ok []
  | en :: rest =>
    match strptimeYMD (en.date.toList.take 10) with
    | none => .error (.valueError "Invalid date format! Use YYYY-MM-DD")
    | some d =>
      match filterByDateRange sd ed rest with
      | .error e => .error e
      | .ok tail =>
          .ok (if dateLe sd d && dateLe d ed then en :: tail else tail)

/-- The date-range branch of `JournalManager.search_entries`
(lines 227-239): parse `start_date`, then `end_date`, then run the
comprehension; any `ValueError` is caught by the handler that prints
"Invalid date format!" and returns with no results. -/
def search_by_date_range (entries : List JournalEntry)
    (start_date end_date : String) : Except PyError (List JournalEntry) :=
  match strptimeYMD start_date.toList with
  | none => .error (.valueError "Invalid date format! Use YYYY-MM-DD")
  | some sd =>
    match strptimeYMD end_date.toList with
    | none => .error (.valueError "Invalid date format! Use YYYY-MM-DD")
    | some ed => filterByDateRange sd ed entries

/-! Concrete data shared by several witnesses and counterexamples. -/

/-- A concrete entry created at a concrete time. -/
def entryA : JournalEntry :=
  JournalEntry.init "A" "hello" "happy" 8 none none none "2026-01-01 10:00:00"

/-- A file system holding a valid key and no data file. -/
def fsA : FS := ⟨some (.validKey 7), none, none⟩

/-- A manager holding the key of `fsA` and the single entry `entryA`. -/
def mgrA : JournalManager := ⟨7, [entryA]⟩

/-- A fault-free save. -/
def noFaults : SaveFaults := ⟨false, false, false, false⟩

/-- The file system after `mgrA` saves into `fsA` without faults. -/
def fsSaved : FS := (save_entries mgrA fsA noFaults).1

/-- Reconstructing an entry from its own serialized record always raises
`TypeError`: `to_dict` emits a `date` key, and `__init__` has no `date`
parameter. -/
theorem callInit_to_dict (e : JournalEntry) (now : String) :
    JournalEntry.callInit e.to_dict now =
      .error (.typeError "__init__() got an unexpected keyword argument date") := rfl

/-- Claim C1: the spec requires save-then-load (fresh Store, same key) to
return the same records; the code cannot: `load_entries` calls
`JournalEntry(**entry)` with the serialized `date` key, which `__init__`
does not accept, so loading any saved non-empty journal raises
`TypeError`, is caught, and yields the empty collection with a
diagnostic.  Here the saved file provably holds the ciphertext of
`[entryA]`, yet a fresh open returns no entries. -/
theorem c1_roundtrip_loses_all_entries :
    fsSaved.dataFile = some (fernetEncrypt 7 (.records [entryA.to_dict])) ∧
    JournalManager.init fsSaved 99 false "2026-01-02 09:00:00" =
      .ok (⟨7, []⟩, fsSaved,
        ["Error loading journal: __init__() got an unexpected keyword argument date"]) :=
  ⟨rfl, rfl⟩

/-- Claim C2: the spec requires that a corrupt key file not crash the
process, at worst a reported key error.  In the code, `__init__` passes
the raw key-file bytes to `Fernet(...)` with no `try`, so a key file whose
content is not a valid Fernet key raises an uncaught `ValueError` out of
`JournalManager(...)` — the model returns `.error`, i.e. an uncaught
exception, not a caught-and-reported diagnostic. -/
theorem c2_corrupt_key_file_crashes :
    JournalManager.init ⟨some (.corruptKey "not-a-valid-fernet-key"), none, none⟩
        0 false "2026-01-02 09:00:00" =
      .error (.valueError "Fernet key must be 32 url-safe base64-encoded bytes.") ∧
    (∃ m fs2, JournalManager.init ⟨none, none, none⟩ 0 false "2026-01-02 09:00:00" =
      .ok (m, fs2, []) ∧ fs2.keyFile = some (.validKey 0) ∧ m.key = 0) :=
  ⟨rfl, ⟨⟨0, []⟩, ⟨some (.validKey 0), none, none⟩, rfl, rfl, rfl⟩⟩

/-- Claim C3: `edit_entry` and `delete_entry` succeed (returning `True`
and running a save) exactly when `0 ≤ index < length`; any other index —
negative ones included — returns `False` and leaves the in-memory
collection, the on-disk files, and the diagnostics untouched. -/
theorem c3_index_safety (m : JournalManager) (fs : FS) (f : SaveFaults)
    (i : Int) (ne : JournalEntry) :
    ((edit_entry m i ne fs f).1 = true ↔ 0 ≤ i ∧ i < (m.entries.length : Int)) ∧
    ((delete_entry m i fs f).1 = true ↔ 0 ≤ i ∧ i < (m.entries.length : Int)) ∧
    (¬(0 ≤ i ∧ i < (m.entries.length : Int)) →
      edit_entry m i ne fs f = (false, m, fs, []) ∧
      delete_entry m i fs f = (false, m, fs, [])) ∧
    (0 ≤ i ∧ i < (m.entries.length : Int) →
      edit_entry m i ne fs f =
        (true, { m with entries := m.entries.set i.toNat ne },
         (save_entries { m with entries := m.entries.set i.toNat ne } fs f).1,
         (save_entries { m with entries := m.entries.set i.toNat ne } fs f).2) ∧
      delete_entry m i fs f =
        (true, { m with entries := m.entries.eraseIdx i.toNat },
         (save_entries { m with entries := m.entries.eraseIdx i.toNat } fs f).1,
         (save_entries { m with entries := m.entries.eraseIdx i.toNat } fs f).2)) := by
  by_cases h : 0 ≤ i ∧ i < (m.entries.length : Int) <;>
    simp [edit_entry, delete_entry, h]

/-- Witness for C3 at concrete inputs: index 5 and index -1 on a
one-entry collection fail and change nothing; index 0 succeeds. -/
theorem c3_witness :
    edit_entry mgrA 5 entryA fsA noFaults = (false, mgrA, fsA, []) ∧
    delete_entry mgrA (-1) fsA noFaults = (false, mgrA, fsA, []) ∧
    (delete_entry mgrA 0 fsA noFaults).1 = true := by
  have h1 := (c3_index_safety mgrA fsA noFaults 5 entryA).2.2.1 (by decide)
  have h2 := (c3_index_safety mgrA fsA noFaults (-1) entryA).2.2.1 (by decide)
  have h3 := (c3_index_safety mgrA fsA noFaults 0 entryA).2.1.mpr (by decide)
  exact ⟨h1.1, h2.2, h3⟩

/-- The ways a load of an existing data file can fail: the read raises,
the blob is not a Fernet token, the token was made under a different key,
the decrypted payload is not valid JSON records, or reconstructing the
entries raises. -/
def LoadFailure (key : Nat) (readFails : Bool) (fd : FileData)
    (now : String) : Prop :=
  readFails = true ∨
  (∃ r, fd = .garbage r) ∨
  (∃ k p, fd = .token k p ∧ k ≠ key) ∨
  (∃ r, fd = .token key (.malformed r)) ∨
  (∃ rs e, fd = .token key (.records rs) ∧ constructEntries now rs = .error e)

/-- Any `LoadFailure` makes `load_entries` return the empty collection
together with exactly one diagnostic line. -/
theorem load_entries_failure (key : Nat) (prev : List JournalEntry) (fs : FS)
    (readFails : Bool) (now : String) (fd : FileData)
    (hdata : fs.dataFile = some fd)
    (hfail : LoadFailure key readFails fd now) :
    ∃ msg, load_entries key prev fs readFails now = ([], [msg]) := by
  cases readFails with
  | true =>
    exact ⟨"Error loading journal: read failed", by simp [load_entries, hdata]⟩
  | false =>
    rcases hfail with h | ⟨r, rfl⟩ | ⟨k', p, rfl, hk⟩ | ⟨r, rfl⟩ | ⟨rs, e, rfl, hc⟩
    · exact absurd h (by simp)
    · exact ⟨"Error loading journal: " ++ errText .invalidToken,
        by simp [load_entries, hdata, fernetDecrypt]⟩
    · refine ⟨"Error loading journal: " ++ errText .invalidToken, ?_⟩
      have hb : (k' == key) = false := by simp [hk]
      simp [load_entries, hdata, fernetDecrypt, hb]
    · exact ⟨"Error loading journal: Expecting value",
        by simp [load_entries, hdata, fernetDecrypt]⟩
    · exact ⟨"Error loading journal: " ++ errText e,
        by simp [load_entries, hdata, fernetDecrypt, hc]⟩

/-- Claim C4: every failure while loading an existing data file is caught
inside the store: opening returns normally (no uncaught exception), a
diagnostic is reported, the in-memory collection is empty, and the file
system — data file and backup file included — is returned exactly as it
was. -/
theorem c4_load_failure_contained (fs : FS) (k freshKey : Nat)
    (readFails : Bool) (now : String) (fd : FileData)
    (hkey : fs.keyFile = some (.validKey k))
    (hdata : fs.dataFile = some fd)
    (hfail : LoadFailure k readFails fd now) :
    ∃ m diags, JournalManager.init fs freshKey readFails now =
        .ok (m, fs, diags) ∧ m.entries = [] ∧ diags ≠ [] := by
  obtain ⟨msg, hload⟩ := load_entries_failure k [] fs readFails now fd hdata hfail
  refine ⟨⟨k, []⟩, [msg], ?_, rfl, by simp⟩
  simp [JournalManager.init, get_or_create_key, hkey, fernetNew, hload]

/-- Witness for C4: a valid key plus an undecryptable blob in the data
file yields an empty collection, a diagnostic, and an untouched file
system. -/
theorem c4_witness :
    ∃ m diags,
      JournalManager.init ⟨some (.validKey 7), some (.garbage "junk"), some (.garbage "old")⟩
          0 false "2026-01-02 09:00:00" =
        .ok (m, ⟨some (.validKey 7), some (.garbage "junk"), some (.garbage "old")⟩, diags) ∧
      m.entries = [] ∧ diags ≠ [] :=
  c4_load_failure_contained _ 7 0 false "2026-01-02 09:00:00" (.garbage "junk")
    rfl rfl (Or.inr (Or.inl ⟨"junk", rfl⟩))

/-- A save configuration in which some step of `save_entries` raises. -/
def SaveFaults.failing (f : SaveFaults) : Bool :=
  f.serializeFails || f.encryptFails || f.primaryOpenFails || f.backupOpenFails

/-- Claim C5: when any step of the save raises, `add_entry` still returns
normally (the model's total return type mirrors the `except` that catches
everything — no uncaught fault), the failure is surfaced as a reported
diagnostic, and the in-memory collection keeps the appended entry even
though it was not (fully) persisted. -/
theorem c5_save_failure_surfaced (m : JournalManager) (e : JournalEntry)
    (fs : FS) (f : SaveFaults) (h : f.failing = true) :
    (add_entry m e fs f).1.entries = m.entries ++ [e] ∧
    (add_entry m e fs f).2.2 ≠ [] := by
  obtain ⟨s, en, p, b⟩ := f
  cases s <;> cases en <;> cases p <;> cases b <;>
    simp_all [SaveFaults.failing, add_entry, save_entries]

/-- Witness for C5: a failing primary-file write during `add_entry`. -/
theorem c5_witness :
    (add_entry mgrA entryA fsA ⟨false, false, true, false⟩).1.entries =
      mgrA.entries ++ [entryA] ∧
    (add_entry mgrA entryA fsA ⟨false, false, true, false⟩).2.2 ≠ [] :=
  c5_save_failure_surfaced mgrA entryA fsA ⟨false, false, true, false⟩ rfl

/-- Counterexample to claim C6 as stated: the mapping produced by
`to_dict` does not contain exactly seven fields — on a concrete entry its
key list is the eight pairwise-distinct keys below, `date` included. -/
theorem c6_counterexample :
    entryA.to_dict.map Prod.fst =
      ["title", "content", "mood", "mood_rating", "tags", "completed_tasks",
       "forgettable_thing", "date"] ∧
    (entryA.to_dict.map Prod.fst).Nodup ∧
    (entryA.to_dict.map Prod.fst).length ≠ 7 := by
  refine ⟨rfl, by decide, by decide⟩

/-- Claim C6, amended from seven to eight fields: `to_dict` produces a
plain key-to-value mapping whose keys are exactly the eight attributes of
the entry, each bound to a plain value equal to the corresponding
attribute. -/
theorem c6_to_dict_eight_fields (e : JournalEntry) :
    e.to_dict.map Prod.fst =
      ["title", "content", "mood", "mood_rating", "tags", "completed_tasks",
       "forgettable_thing", "date"] ∧
    lookupKw e.to_dict "title" = some (.str e.title) ∧
    lookupKw e.to_dict "content" = some (.str e.content) ∧
    lookupKw e.to_dict "mood" = some (.str e.mood) ∧
    lookupKw e.to_dict "mood_rating" = some (.int e.mood_rating) ∧
    lookupKw e.to_dict "tags" = some (.list e.tags) ∧
    lookupKw e.to_dict "completed_tasks" = some (.list e.completed_tasks) ∧
    lookupKw e.to_dict "forgettable_thing" =
      some (match e.forgettable_thing with | some s => .str s | none => .noneV) ∧
    lookupKw e.to_dict "date" = some (.str e.date) :=
  ⟨rfl, rfl, rfl, rfl, rfl, rfl, rfl, rfl, rfl⟩

/-- When every entry's date prefix parses, the comprehension of
lines 233-236 reduces to an ordinary filter by `matchesRange`. -/
theorem filterByDateRange_eq_filter (sd ed : Nat × Nat × Nat)
    (entries : List JournalEntry)
    (hwf : ∀ en ∈ entries, (strptimeYMD (en.date.toList.take 10)).isSome) :
    filterByDateRange sd ed entries =
      .ok (entries.filter (matchesRange sd ed)) := by
  induction entries with
  | nil => rfl
  | cons en rest ih =>
    obtain ⟨d, hd⟩ := Option.isSome_iff_exists.mp (hwf en (List.mem_cons_self en rest))
    have ih' := ih (fun x hx => hwf x (List.mem_cons_of_mem en hx))
    have hm : matchesRange sd ed en = (dateLe sd d && dateLe d ed) := by
      unfold matchesRange
      rw [hd]
    unfold filterByDateRange
    rw [hd, ih', List.filter_cons, hm]

/-- Claim C7: if both bounds parse as `YYYY-MM-DD` calendar dates and
the entries' date prefixes are well-formed (as every constructed entry's
`%Y-%m-%d %H:%M:%S` timestamp is), the date-range search returns exactly
the entries whose first ten date characters lie within the inclusive
range; if either bound is malformed, the query fails with the
`ValueError` that the caller reports as "Invalid date format!", yielding
no results.  The query never modifies the collection (it is a pure
function of it). -/
theorem c7_search_by_date_range (entries : List JournalEntry)
    (s e : String) :
    (∀ sd ed, strptimeYMD s.toList = some sd → strptimeYMD e.toList = some ed →
      (∀ en ∈ entries, (strptimeYMD (en.date.toList.take 10)).isSome) →
      search_by_date_range entries s e =
        .ok (entries.filter (matchesRange sd ed))) ∧
    ((strptimeYMD s.toList = none ∨ strptimeYMD e.toList = none) →
      search_by_date_range entries s e =
        .error (.valueError "Invalid date format! Use YYYY-MM-DD")) := by
  constructor
  · intro sd ed hs he hwf
    unfold search_by_date_range
    rw [hs, he]
    exact filterByDateRange_eq_filter sd ed entries hwf
  · rintro (h | h)
    · unfold search_by_date_range
      rw [h]
    · cases hs : strptimeYMD s.toList with
      | none =>
        unfold search_by_date_range
        rw [hs]
      | some sd =>
        unfold search_by_date_range
        rw [hs, h]

/-- Witness for C7: a well-formed range around `entryA`'s date keeps the
entry — the end bound uses the space-padded day form "2026-01- 2" that
the `%d` directive accepts — while a three-digit year, which `%Y`
(exactly four digits) rejects, fails the query. -/
theorem c7_witness :
    search_by_date_range [entryA] "2025-12-31" "2026-01- 2" =
      .ok ([entryA].filter (matchesRange (2025, 12, 31) (2026, 1, 2))) ∧
    search_by_date_range [entryA] "999-01-02" "2026-01-02" =
      .error (.valueError "Invalid date format! Use YYYY-MM-DD") :=
  ⟨(c7_search_by_date_range [entryA] "2025-12-31" "2026-01- 2").1
      (2025, 12, 31) (2026, 1, 2) rfl rfl (by decide),
   (c7_search_by_date_range [entryA] "999-01-02" "2026-01-02").2 (Or.inl rfl)⟩

/-- Claim C8: `date` is exactly the construction-time timestamp, and an
in-range `edit_entry` performs whole-value replacement: the collection
becomes `set index new_entry`, the slot now holds the freshly constructed
entry whose `date` is its own construction time `now2` — nothing derives
from or mutates the replaced entry's timestamp. -/
theorem c8_date_set_once_edit_replaces (t c mo : String) (r : Int)
    (tg ct : Option (List String)) (fg : Option String) (now2 : String)
    (m : JournalManager) (fs : FS) (f : SaveFaults) (i : Int)
    (h : 0 ≤ i ∧ i < (m.entries.length : Int)) :
    (JournalEntry.init t c mo r tg ct fg now2).date = now2 ∧
    (edit_entry m i (JournalEntry.init t c mo r tg ct fg now2) fs f).2.1.entries =
      m.entries.set i.toNat (JournalEntry.init t c mo r tg ct fg now2) ∧
    (edit_entry m i (JournalEntry.init t c mo r tg ct fg now2) fs f).2.1.entries[i.toNat]? =
      some (JournalEntry.init t c mo r tg ct fg now2) := by
  have hlt : i.toNat < m.entries.length := by omega
  refine ⟨rfl, ?_, ?_⟩
  · simp [edit_entry, h]
  · simp [edit_entry, h, List.getElem?_set_eq_of_lt _ hlt]

/-- Witness for C8: editing slot 0 of a one-entry collection with an
entry constructed at a later time installs that entry, carrying the new
timestamp. -/
theorem c8_witness :
    (JournalEntry.init "B" "bye" "sad" 2 none none none "2026-02-02 08:00:00").date =
      "2026-02-02 08:00:00" ∧
    (edit_entry mgrA 0 (JournalEntry.init "B" "bye" "sad" 2 none none none
        "2026-02-02 08:00:00") fsA noFaults).2.1.entries =
      mgrA.entries.set 0 (JournalEntry.init "B" "bye" "sad" 2 none none none
        "2026-02-02 08:00:00") ∧
    (edit_entry mgrA 0 (JournalEntry.init "B" "bye" "sad" 2 none none none
        "2026-02-02 08:00:00") fsA noFaults).2.1.entries[(0 : Nat)]? =
      some (JournalEntry.init "B" "bye" "sad" 2 none none none
        "2026-02-02 08:00:00") :=
  c8_date_set_once_edit_replaces "B" "bye" "sad" 2 none none none
    "2026-02-02 08:00:00" mgrA fsA noFaults 0 (by decide)

/-- Claim C9: with a usable key state (key file missing — then a fresh
key is created — or holding a valid key), a missing or empty data file
makes opening the Store succeed with an empty in-memory collection and
no reported diagnostic. -/
theorem c9_missing_or_empty_data_file (fs : FS) (freshKey : Nat)
    (now : String)
    (hkey : fs.keyFile = none ∨ ∃ k, fs.keyFile = some (.validKey k))
    (hdata : fs.dataFile = none ∨ fs.dataFile = some .emptyFile) :
    ∃ m fs2, JournalManager.init fs freshKey false now = .ok (m, fs2, []) ∧
      m.entries = [] := by
  rcases hkey with hkey | ⟨k, hkey⟩ <;>
    rcases hdata with hdata | hdata <;>
      [refine ⟨⟨freshKey, []⟩, _, ?_, rfl⟩; refine ⟨⟨freshKey, []⟩, _, ?_, rfl⟩;
       refine ⟨⟨k, []⟩, _, ?_, rfl⟩; refine ⟨⟨k, []⟩, _, ?_, rfl⟩] <;>
    simp [JournalManager.init, get_or_create_key, hkey, fernetNew,
      load_entries, hdata]

/-- Witness for C9: a completely fresh user (no key file, no data file)
opens to an empty collection with no diagnostic; so does a user with a
valid key and an empty data file. -/
theorem c9_witness :
    (∃ m fs2, JournalManager.init ⟨none, none, none⟩ 3 false "2026-01-02 09:00:00" =
      .ok (m, fs2, []) ∧ m.entries = []) ∧
    (∃ m fs2, JournalManager.init ⟨some (.validKey 7), some .emptyFile, none⟩ 3 false
        "2026-01-02 09:00:00" = .ok (m, fs2, []) ∧ m.entries = []) :=
  ⟨c9_missing_or_empty_data_file _ 3 "2026-01-02 09:00:00" (Or.inl rfl) (Or.inl rfl),
   c9_missing_or_empty_data_file _ 3 "2026-01-02 09:00:00" (Or.inr ⟨7, rfl⟩) (Or.inr rfl)⟩

/-- Claim C10: in `save_entries` the backup write is the last step, so a
failure at serialization, encryption or the primary write leaves the
backup file unchanged; a failure at serialization or encryption leaves
the primary file unchanged as well; and a fault-free save leaves both
files holding the same ciphertext of the full collection. -/
theorem c10_backup_written_last (m : JournalManager) (fs : FS)
    (f : SaveFaults) :
    ((f.serializeFails || f.encryptFails || f.primaryOpenFails) = true →
      (save_entries m fs f).1.backupFile = fs.backupFile) ∧
    ((f.serializeFails || f.encryptFails) = true →
      (save_entries m fs f).1.dataFile = fs.dataFile) ∧
    (f.serializeFails = false → f.encryptFails = false →
      f.primaryOpenFails = false → f.backupOpenFails = false →
      (save_entries m fs f).1.dataFile =
        some (fernetEncrypt m.key (.records (m.entries.map JournalEntry.to_dict))) ∧
      (save_entries m fs f).1.backupFile = (save_entries m fs f).1.dataFile) := by
  obtain ⟨s, en, p, b⟩ := f
  cases s <;> cases en <;> cases p <;> cases b <;>
    simp [save_entries, fernetEncrypt]

/-- Witness for C10: a failing serialization leaves both files of `fsA`
unchanged, and the fault-free save that produced `fsSaved` wrote the
ciphertext of the full collection to both files. -/
theorem c10_witness :
    (save_entries mgrA fsA ⟨true, false, false, false⟩).1.backupFile = fsA.backupFile ∧
    (save_entries mgrA fsA ⟨true, false, false, false⟩).1.dataFile = fsA.dataFile ∧
    (save_entries mgrA fsA noFaults).1.dataFile =
      some (fernetEncrypt mgrA.key (.records (mgrA.entries.map JournalEntry.to_dict))) ∧
    (save_entries mgrA fsA noFaults).1.backupFile =
      (save_entries mgrA fsA noFaults).1.dataFile :=
  ⟨(c10_backup_written_last mgrA fsA ⟨true, false, false, false⟩).1 rfl,
   (c10_backup_written_last mgrA fsA ⟨true, false, false, false⟩).2.1 rfl,
   (c10_backup_written_last mgrA fsA noFaults).2.2 rfl rfl rfl rfl⟩
